import Mathlib

/-!
Verification of the popup configuration resolver.

This file gives a shallow embedding of the configuration data model and the
resolution pipeline of the popup tool (src-tauri/src/lib.rs and
src-tauri/src/main.rs) and proves properties of that embedding.

Rust f64 dimension values are modelled by the type F64 below: a finite
rational, or one of the non-finite IEEE values.  Rust String is modelled by
Lean String; str::starts_with is modelled through the underlying character
list so that prefix facts are provable.  Functions that print an error and
call process::exit(1) are modelled as returning an error value of the
CliError type, one constructor per exit site.
-/

namespace Popup

/-- Model of Rust f64 for window dimensions: a finite rational or one of the
IEEE special values. -/
inductive F64 where
  | finite (q : ℚ)
  | posInf
  | negInf
  | nan
deriving DecidableEq

/-- Model of Rust str::starts_with via the underlying character lists. -/
def strStartsWith (s p : String) : Bool :=
  p.data.isPrefixOf s.data

/-- Window configuration (lib.rs, struct WindowConfig). -/
structure WindowConfig where
  width : F64
  height : F64
  resizable : Bool
  always_on_top : Bool
  skip_taskbar : Bool
  focus : Bool
  visible_on_all_workspaces : Bool
  closable : Bool
  minimizable : Bool
  hidden_title : Bool
  title_bar_style : String
deriving DecidableEq

def default_width : F64 := .finite 800

def default_height : F64 := .finite 600

def default_resizable : Bool := false

def default_always_on_top : Bool := true

def default_skip_taskbar : Bool := true

def default_focus : Bool := true

def default_visible_on_all_workspaces : Bool := true

def default_closable : Bool := false

def default_minimizable : Bool := false

def default_hidden_title : Bool := true

def default_title_bar_style : String := "overlay"

/-- Default window configuration (lib.rs, impl Default for WindowConfig). -/
def WindowConfig.default : WindowConfig where
  width := default_width
  height := default_height
  resizable := default_resizable
  always_on_top := default_always_on_top
  skip_taskbar := default_skip_taskbar
  focus := default_focus
  visible_on_all_workspaces := default_visible_on_all_workspaces
  closable := default_closable
  minimizable := default_minimizable
  hidden_title := default_hidden_title
  title_bar_style := default_title_bar_style

/-- Hardcoded window configuration for the notification template
(lib.rs, WindowConfig::notification_template). -/
def WindowConfig.notification_template : WindowConfig where
  width := .finite 500
  height := .finite 300
  resizable := false
  always_on_top := true
  skip_taskbar := true
  focus := true
  visible_on_all_workspaces := true
  closable := false
  minimizable := false
  hidden_title := true
  title_bar_style := "overlay"

/-- Webhook configuration (lib.rs, struct WebhookConfig). -/
structure WebhookConfig where
  url : String
  payload : String
deriving DecidableEq

/-- YAML notification section (lib.rs, struct NotificationConfig). -/
structure NotificationConfig where
  title : String
  description : String
  icon : Option String
  button_primary_text : Option String
  button_primary_webhook : Option WebhookConfig
  button_secondary_text : Option String
  button_secondary_webhook : Option WebhookConfig
deriving DecidableEq

/-- YAML custom section (lib.rs, struct CustomConfig). -/
structure CustomConfig where
  url : String
  title : Option String
  window : Option WindowConfig
deriving DecidableEq

/-- Top-level YAML configuration tree (lib.rs, struct AppConfig). -/
structure AppConfig where
  notification : Option NotificationConfig
  custom : Option CustomConfig
deriving DecidableEq

/-- Custom (webview) content (lib.rs, struct CustomContent; main.rs builds the
same shape under the name WebviewContent, which the library does not declare:
spec section 3 identifies the two as one variant of the Content union). -/
structure CustomContent where
  url : String
  window_title : Option String
deriving DecidableEq

/-- Notification content (lib.rs, struct NotificationContent). -/
structure NotificationContent where
  title : String
  description : String
  icon : Option String
  button_primary_text : Option String
  button_primary_webhook : Option WebhookConfig
  button_secondary_text : Option String
  button_secondary_webhook : Option WebhookConfig
deriving DecidableEq

/-- Content union (lib.rs, enum Content). -/
inductive Content where
  | Custom (c : CustomContent)
  | Notification (n : NotificationContent)
deriving DecidableEq

/-- Internal configuration (lib.rs, struct Config). -/
structure Config where
  content : Content
  window : WindowConfig
deriving DecidableEq

/-- Schema mapping from the raw YAML tree to the internal configuration
(lib.rs, AppConfig::to_config).  The notification branch is checked first;
the custom branch is only reached when notification is absent. -/
def AppConfig.to_config (self : AppConfig) : Except String Config :=
  match self.notification with
  | some notification =>
    .ok { content := .Notification {
            title := notification.title
            description := notification.description
            icon := notification.icon
            button_primary_text := notification.button_primary_text
            button_primary_webhook := notification.button_primary_webhook
            button_secondary_text := notification.button_secondary_text
            button_secondary_webhook := notification.button_secondary_webhook }
          window := WindowConfig.notification_template }
  | none =>
    match self.custom with
    | some custom =>
      .ok { content := .Custom { url := custom.url, window_title := custom.title }
            window := custom.window.getD WindowConfig.default }
    | none =>
      .error "Config must contain either notification or custom section"

/-- Process environment for load_config: the HOME variable, the current
working directory, the file system read, and the YAML deserializer.  A read
or parse failure is a none result. -/
structure Env where
  home : Option String
  cwd : Option String
  readFile : String → Option String
  parseYaml : String → Option AppConfig

/-- Path expansion of load_config (lib.rs, load_config lines 212-222):
a leading tilde-slash is replaced by HOME (falling back to a dot), a relative
path is joined to the current working directory, an absolute path is kept. -/
def expandPath (env : Env) (path : String) : Except String String :=
  if strStartsWith path "~/" then
    .ok ((env.home.getD ".") ++ path.drop 1)
  else if ¬ strStartsWith path "/" then
    match env.cwd with
    | some cwd => .ok (cwd ++ "/" ++ path)
    | none => .error "Failed to get current directory"
  else
    .ok path

/-- File loading pipeline (lib.rs, load_config): expand the path, read the
file, parse the YAML, and run the schema mapping. -/
def load_config (env : Env) (path : String) : Except String Config :=
  match expandPath env path with
  | .error e => .error e
  | .ok expanded =>
    match env.readFile expanded with
    | none => .error ("Failed to read config file " ++ expanded)
    | some content =>
      match env.parseYaml content with
      | none => .error "Failed to parse YAML config"
      | some app_config => app_config.to_config

/-- Command-line arguments (main.rs, struct Args).  Every flag is optional;
the hidden framework flags and the templates listing flag play no part in
configuration resolution and are omitted. -/
structure Args where
  config : Option String
  type : Option String
  url : Option String
  title : Option String
  description : Option String
  icon : Option String
  button_primary_text : Option String
  button_primary_webhook_url : Option String
  button_primary_webhook_payload : Option String
  button_secondary_text : Option String
  button_secondary_webhook_url : Option String
  button_secondary_webhook_payload : Option String
  webview : Option String
  width : Option F64
  height : Option F64
  resizable : Option Bool
  always_on_top : Option Bool
  skip_taskbar : Option Bool
  focus : Option Bool
  visible_on_all_workspaces : Option Bool
  closable : Option Bool
  minimizable : Option Bool
  hidden_title : Option Bool
  title_bar_style : Option String
deriving DecidableEq

/-- An Args value with every flag absent. -/
def Args.empty : Args where
  config := none
  type := none
  url := none
  title := none
  description := none
  icon := none
  button_primary_text := none
  button_primary_webhook_url := none
  button_primary_webhook_payload := none
  button_secondary_text := none
  button_secondary_webhook_url := none
  button_secondary_webhook_payload := none
  webview := none
  width := none
  height := none
  resizable := none
  always_on_top := none
  skip_taskbar := none
  focus := none
  visible_on_all_workspaces := none
  closable := none
  minimizable := none
  hidden_title := none
  title_bar_style := none

/-- Fatal resolution errors.  main.rs reports each of these by printing a
message and calling process::exit(1); the model returns the error value
instead, one constructor per exit site, plus the InvalidDimension error of
the spec-modelled override merge. -/
inductive CliError where
  | invalidUrlScheme
  | missingSource
  | configLoad (msg : String)
  | missingUrl
  | missingTitle
  | missingDescription
  | incompleteWebhook (button : String)
  | unknownType (t : String)
  | missingType
  | invalidDimension
deriving DecidableEq

/-- URL scheme test of main.rs lines 153-157: the url must start with one of
the three allowed scheme prefixes. -/
def urlSchemeOk (url : String) : Bool :=
  strStartsWith url "http://" || strStartsWith url "https://" ||
    strStartsWith url "file://"

/-- Webhook construction for one button (main.rs lines 238-264): a url and a
payload yield a webhook; a url without a payload is a fatal error; any other
combination (including a payload without a url) yields no webhook. -/
def buildWebhook (button : String) (url payload : Option String) :
    Except CliError (Option WebhookConfig) :=
  match url, payload with
  | some u, some p => .ok (some { url := u, payload := p })
  | some _, none => .error (.incompleteWebhook button)
  | _, _ => .ok .none

/-- Content and base window resolution (main.rs lines 152-294).  main.rs
treats the resolved window as optional (the CLI branch builds the config with
window set to None); the model returns the pair of content and optional base
window.  The webview URL check applies only to the deprecated webview flag;
the url flag is not scheme-checked here. -/
def resolveSource (env : Env) (args : Args) :
    Except CliError (Content × Option WindowConfig) := do
  match args.webview with
  | some url => if urlSchemeOk url then pure () else throw .invalidUrlScheme
  | none => pure ()
  if args.config = none ∧ args.type = none ∧ args.webview = none then
    throw .missingSource
  match args.config with
  | some path =>
    match load_config env path with
    | .ok cfg => pure (cfg.content, some cfg.window)
    | .error e => throw (.configLoad e)
  | none =>
    let contentType : Option String :=
      args.type.orElse fun _ => if args.webview.isSome then some "webview" else none
    match contentType with
    | some t =>
      if t = "webview" then do
        match args.url.orElse fun _ => args.webview with
        | some url => pure (.Custom { url := url, window_title := args.title }, .none)
        | none => throw .missingUrl
      else if t = "notification" then do
        let title ← match args.title with
          | some title => pure title
          | none => throw .missingTitle
        let description ← match args.description with
          | some d => pure d
          | none => throw .missingDescription
        let button_primary_webhook ← buildWebhook "primary"
          args.button_primary_webhook_url args.button_primary_webhook_payload
        let button_secondary_webhook ← buildWebhook "secondary"
          args.button_secondary_webhook_url args.button_secondary_webhook_payload
        pure (.Notification {
            title := title
            description := description
            icon := args.icon
            button_primary_text := args.button_primary_text
            button_primary_webhook := button_primary_webhook
            button_secondary_text := args.button_secondary_text
            button_secondary_webhook := button_secondary_webhook }, .none)
      else
        throw (.unknownType t)
    | none => throw .missingType

/-- A dimension override is acceptable when it is a finite positive number. -/
def F64.isFinitePos : F64 → Bool
  | .finite q => decide (0 < q)
  | _ => false

/-- A dimension override violates the spec bound when it is present and not a
finite positive number. -/
def badDimension : Option F64 → Bool
  | some w => ! w.isFinitePos
  | none => false

/-- Modelled from the spec: WindowConfig::merge_with_cli_overrides is called
in main.rs line 327 but is not defined under src.  Spec section 4.4 gives its
contract: each field of the result equals the override when present and the
base value otherwise, in one field-independent pass, with a numeric override
that is not a finite positive number failing with InvalidDimension. -/
def merge_with_cli_overrides (base : WindowConfig) (args : Args) :
    Except CliError WindowConfig :=
  if badDimension args.width then
    .error .invalidDimension
  else if badDimension args.height then
    .error .invalidDimension
  else
    .ok { width := args.width.getD base.width
          height := args.height.getD base.height
          resizable := args.resizable.getD base.resizable
          always_on_top := args.always_on_top.getD base.always_on_top
          skip_taskbar := args.skip_taskbar.getD base.skip_taskbar
          focus := args.focus.getD base.focus
          visible_on_all_workspaces :=
            args.visible_on_all_workspaces.getD base.visible_on_all_workspaces
          closable := args.closable.getD base.closable
          minimizable := args.minimizable.getD base.minimizable
          hidden_title := args.hidden_title.getD base.hidden_title
          title_bar_style := args.title_bar_style.getD base.title_bar_style }

/-- Window finalization of the setup closure (main.rs lines 322-366): the base
window (or the default when none) merged with the CLI overrides; then, for
notification content only, the template override of exactly four fields:
width 500, height 300, resizable false, skip_taskbar true. -/
def finalizeWindow (content : Content) (base : Option WindowConfig)
    (args : Args) : Except CliError WindowConfig := do
  let merged ← merge_with_cli_overrides (base.getD WindowConfig.default) args
  match content with
  | .Custom _ => pure merged
  | .Notification _ =>
    pure { merged with
           width := .finite 500
           height := .finite 300
           resizable := false
           skip_taskbar := true }

/-- Full resolution pipeline of main: content and base window from the YAML
file or the CLI flags, then the finalized window. -/
def resolve (env : Env) (args : Args) : Except CliError Config := do
  let (content, base) ← resolveSource env args
  let window ← finalizeWindow content base args
  pure { content := content, window := window }

/-- Title bar styles of the window host (main.rs lines 387-398). -/
inductive TitleBarStyle where
  | Overlay
  | Transparent
  | Visible
deriving DecidableEq

/-- Title bar style normalization (main.rs lines 387-398): the three
recognized tokens map to themselves; any other value falls back to Overlay
with a warning, never an error. -/
def resolveTitleBarStyle (s : String) : TitleBarStyle :=
  if s = "overlay" then .Overlay
  else if s = "transparent" then .Transparent
  else if s = "visible" then .Visible
  else .Overlay

/-- An environment with no HOME, no working directory, an unreadable file
system and a failing YAML deserializer; configuration resolution from CLI
flags alone never consults it. -/
def nullEnv : Env where
  home := none
  cwd := none
  readFile := fun _ => none
  parseYaml := fun _ => none

/-- A notification invocation that also supplies the always_on_top window
override on the command line. -/
def notifOverrideArgs : Args := { Args.empty with
  type := some "notification"
  title := some "Update"
  description := some "Now"
  always_on_top := some false }

/-- A concrete notification section. -/
def bothNotification : NotificationConfig := ⟨"T", "D", none, none, none, none, none⟩

/-- A concrete custom section. -/
def bothCustom : CustomConfig := ⟨"https://example.com", none, none⟩

/-- A notification invocation that supplies a primary webhook payload but no
primary webhook url. -/
def payloadOnlyArgs : Args := { Args.empty with
  type := some "notification"
  title := some "Update"
  description := some "Now"
  button_primary_webhook_payload := some "p" }

/-- A webview invocation whose url flag carries a disallowed scheme. -/
def ftpUrlArgs : Args := { Args.empty with
  type := some "webview"
  url := some "ftp://example.com" }

/-- A webview invocation with a title and a width override, matching the
worked example of the spec. -/
def exampleCustomArgs : Args := { Args.empty with
  type := some "webview"
  url := some "https://example.com"
  title := some "Hi"
  width := some (.finite 400) }

/-- Per-field optional window overrides, as both a YAML window block (with
the serde per-field defaults of lib.rs) and the CLI window flags express
them. -/
structure WindowOverrides where
  width : Option F64
  height : Option F64
  resizable : Option Bool
  always_on_top : Option Bool
  skip_taskbar : Option Bool
  focus : Option Bool
  visible_on_all_workspaces : Option Bool
  closable : Option Bool
  minimizable : Option Bool
  hidden_title : Option Bool
  title_bar_style : Option String
deriving DecidableEq

/-- A logical input expressible both as a YAML document and as CLI flags: a
notification (whose YAML schema has no window block) or a custom view with
optional window overrides. -/
inductive LogicalInput where
  | notification (n : NotificationConfig)
  | custom (url : String) (title : Option String) (ov : WindowOverrides)
deriving DecidableEq

/-- The window a YAML window block with exactly the given fields present
deserializes to: each missing field takes the serde default of lib.rs. -/
def windowFromOverrides (ov : WindowOverrides) : WindowConfig where
  width := ov.width.getD default_width
  height := ov.height.getD default_height
  resizable := ov.resizable.getD default_resizable
  always_on_top := ov.always_on_top.getD default_always_on_top
  skip_taskbar := ov.skip_taskbar.getD default_skip_taskbar
  focus := ov.focus.getD default_focus
  visible_on_all_workspaces := ov.visible_on_all_workspaces.getD default_visible_on_all_workspaces
  closable := ov.closable.getD default_closable
  minimizable := ov.minimizable.getD default_minimizable
  hidden_title := ov.hidden_title.getD default_hidden_title
  title_bar_style := ov.title_bar_style.getD default_title_bar_style

/-- The YAML configuration tree equivalent to a logical input. -/
def LogicalInput.yamlTree : LogicalInput → AppConfig
  | .notification n => ⟨some n, none⟩
  | .custom url title ov => ⟨none, some ⟨url, title, some (windowFromOverrides ov)⟩⟩

/-- The CLI flags equivalent to a logical input. -/
def LogicalInput.cliArgs : LogicalInput → Args
  | .notification n => { Args.empty with
      type := some "notification"
      title := some n.title
      description := some n.description
      icon := n.icon
      button_primary_text := n.button_primary_text
      button_primary_webhook_url := n.button_primary_webhook.map fun w => w.url
      button_primary_webhook_payload := n.button_primary_webhook.map fun w => w.payload
      button_secondary_text := n.button_secondary_text
      button_secondary_webhook_url := n.button_secondary_webhook.map fun w => w.url
      button_secondary_webhook_payload := n.button_secondary_webhook.map fun w => w.payload }
  | .custom url title ov => { Args.empty with
      type := some "webview"
      url := some url
      title := title
      width := ov.width
      height := ov.height
      resizable := ov.resizable
      always_on_top := ov.always_on_top
      skip_taskbar := ov.skip_taskbar
      focus := ov.focus
      visible_on_all_workspaces := ov.visible_on_all_workspaces
      closable := ov.closable
      minimizable := ov.minimizable
      hidden_title := ov.hidden_title
      title_bar_style := ov.title_bar_style }

/-- The dimension overrides of a logical input are finite positive numbers
when present. -/
def LogicalInput.dims_ok : LogicalInput → Bool
  | .notification _ => true
  | .custom _ _ ov => !(badDimension ov.width) && !(badDimension ov.height)

/-- An environment whose file system holds one readable YAML file that
deserializes to the given configuration tree. -/
def fileEnv (tree : AppConfig) : Env where
  home := none
  cwd := none
  readFile := fun _ => some "yaml-text"
  parseYaml := fun _ => some tree

/-- The invocation that loads the configuration from a file. -/
def fileArgs : Args := { Args.empty with config := some "/app-config.yaml" }

/-- A concrete custom logical input with a width override. -/
def exampleLogical : LogicalInput :=
  .custom "https://example.com" (some "Hi")
    ⟨some (.finite 400), none, none, none, none, none, none, none, none, none, none⟩

end Popup

deriving instance DecidableEq for Except

namespace Popup

/-- A list is a prefix of itself followed by anything. -/
theorem isPrefixOf_append_self (l t : List Char) : l.isPrefixOf (l ++ t) = true := by
  induction l with
  | nil => simp [List.isPrefixOf]
  | cons a as ih => simp [List.isPrefixOf, ih]

/-- A string starts with any string it extends on the right. -/
theorem strStartsWith_append (p s : String) : strStartsWith (p ++ s) p = true := by
  unfold strStartsWith
  rw [String.data_append]
  exact isPrefixOf_append_self p.data s.data

/-- Claim C1: the claim states that for Notification content the finalized
window equals the fixed notification template in all eleven fields,
regardless of any window overrides.  The code forces only width, height,
resizable and skip_taskbar after merging (main.rs lines 356-362), so a CLI
always_on_top override survives into the finalized window of a notification:
at the failing input (notification with always_on_top false) resolution
succeeds with a window that differs from the template. -/
theorem C1_divergence :
    resolve nullEnv notifOverrideArgs =
      .ok ⟨.Notification ⟨"Update", "Now", none, none, none, none, none⟩,
           { WindowConfig.notification_template with always_on_top := false }⟩ ∧
    ¬ (resolve nullEnv notifOverrideArgs).map Config.window =
        .ok WindowConfig.notification_template := by
  exact ⟨by decide, by decide⟩

/-- Claim C2, counterexample: a YAML tree carrying both a notification and a
custom section does not produce a ConfigError; to_config succeeds. -/
theorem C2_both_sections_no_error :
    (AppConfig.to_config ⟨some bothNotification, some bothCustom⟩).isOk = true := by
  decide

/-- Claim C2 as amended: the schema mapping returns the missing-section
ConfigError exactly when neither the notification nor the custom key is
present; in every other case, a tree with both keys included, it succeeds. -/
theorem C2_missing_section_iff :
    ∀ a : AppConfig, a.to_config.isOk = false ↔ a.notification = none ∧ a.custom = none := by
  intro a
  rcases a with ⟨n, c⟩
  cases n <;> cases c <;> simp [AppConfig.to_config, Except.isOk, Except.toBool]

/-- Claim C3, counterexample: a notification invocation supplying a primary
webhook payload without a url does not fail with IncompleteWebhook; it
resolves successfully with no primary webhook. -/
theorem C3_payload_without_url_ignored :
    resolve nullEnv payloadOnlyArgs =
      .ok ⟨.Notification ⟨"Update", "Now", none, none, none, none, none⟩,
           WindowConfig.notification_template⟩ := by
  decide

/-- Claim C3 as amended: for each button, a webhook url together with a
payload always yields a constructed WebhookConfig; a url without a payload
always fails with the IncompleteWebhook error for that button; a payload
without a url is silently ignored and yields no webhook; and through the
full source resolution a notification invocation with a dangling primary or
secondary webhook url fails with the corresponding IncompleteWebhook. -/
theorem C3_webhook_pairing :
    ∀ (b u p : String) (env : Env) (t d : String),
      buildWebhook b (some u) (some p) = .ok (some ⟨u, p⟩) ∧
      buildWebhook b (some u) Option.none = .error (.incompleteWebhook b) ∧
      buildWebhook b Option.none (some p) = .ok Option.none ∧
      resolveSource env { Args.empty with
          type := some "notification", title := some t, description := some d,
          button_primary_webhook_url := some u } =
        .error (.incompleteWebhook "primary") ∧
      resolveSource env { Args.empty with
          type := some "notification", title := some t, description := some d,
          button_secondary_webhook_url := some u } =
        .error (.incompleteWebhook "secondary") := by
  intro b u p env t d
  exact ⟨rfl, rfl, rfl, rfl, rfl⟩

/-- Claim C4, counterexample: a webview invocation whose url flag has the
disallowed ftp scheme does not fail resolution; it resolves successfully,
because main.rs scheme-checks only the deprecated webview flag. -/
theorem C4_url_flag_unchecked :
    resolve nullEnv ftpUrlArgs =
      .ok ⟨.Custom ⟨"ftp://example.com", none⟩, WindowConfig.default⟩ := by
  decide

/-- Claim C4 as amended: the scheme check applies to the url supplied through
the deprecated webview flag: such a url lacking all three allowed prefixes
always fails resolution with InvalidUrlScheme, and every url starting with
one of the three prefixes passes the scheme check; a url supplied through
the url flag is not scheme-checked. -/
theorem C4_scheme_check_webview_flag :
    ∀ (env : Env) (args : Args) (u : String),
      args.webview = some u →
      (urlSchemeOk u = false → resolve env args = .error .invalidUrlScheme) ∧
      (∀ s : String, urlSchemeOk ("http://" ++ s) = true ∧
        urlSchemeOk ("https://" ++ s) = true ∧ urlSchemeOk ("file://" ++ s) = true) := by
  intro env args u h
  constructor
  · intro hbad
    simp [resolve, resolveSource, h, hbad]
    rfl
  · intro s
    refine ⟨?_, ?_, ?_⟩ <;> simp [urlSchemeOk, strStartsWith_append]

/-- Claim C4 witness: the amended theorem applied at a concrete bad-scheme
webview flag and a concrete well-formed https url. -/
theorem C4_witness :
    resolve nullEnv { Args.empty with webview := some "ftp://x" } = .error .invalidUrlScheme ∧
    urlSchemeOk ("https://" ++ "example.com") = true := by
  have h := C4_scheme_check_webview_flag nullEnv
    { Args.empty with webview := some "ftp://x" } "ftp://x" rfl
  exact ⟨h.1 (by decide), (h.2 "example.com").2.1⟩

/-- Claim C5: for every base window and assignment of optional CLI overrides
with acceptable dimensions, the merged window has each field equal to the
override when present and to the base value when absent, in one
field-independent pass; and for a custom invocation with no file, the
resolved window equals the defaults with exactly the supplied fields
overridden. -/
theorem C5_merge_field_wise :
    ∀ (base : WindowConfig) (args : Args) (env : Env) (u : String),
      badDimension args.width = false →
      badDimension args.height = false →
      merge_with_cli_overrides base args =
        .ok ⟨args.width.getD base.width, args.height.getD base.height,
             args.resizable.getD base.resizable, args.always_on_top.getD base.always_on_top,
             args.skip_taskbar.getD base.skip_taskbar, args.focus.getD base.focus,
             args.visible_on_all_workspaces.getD base.visible_on_all_workspaces,
             args.closable.getD base.closable, args.minimizable.getD base.minimizable,
             args.hidden_title.getD base.hidden_title,
             args.title_bar_style.getD base.title_bar_style⟩ ∧
      (args.config = Option.none → args.type = some "webview" → args.url = some u →
        args.webview = Option.none →
        resolve env args =
          .ok ⟨.Custom ⟨u, args.title⟩,
               ⟨args.width.getD default_width, args.height.getD default_height,
                args.resizable.getD default_resizable,
                args.always_on_top.getD default_always_on_top,
                args.skip_taskbar.getD default_skip_taskbar, args.focus.getD default_focus,
                args.visible_on_all_workspaces.getD default_visible_on_all_workspaces,
                args.closable.getD default_closable, args.minimizable.getD default_minimizable,
                args.hidden_title.getD default_hidden_title,
                args.title_bar_style.getD default_title_bar_style⟩⟩) := by
  intro base args env u hw hh
  constructor
  · simp [merge_with_cli_overrides, hw, hh]
  · intro hc ht hu hwv
    simp [resolve, resolveSource, finalizeWindow, merge_with_cli_overrides,
      WindowConfig.default, hc, ht, hu, hwv, hw, hh, Option.orElse]

/-- Claim C5 witness: the theorem applied at the worked example of the spec,
a webview invocation with a title and width 400, resolves to the defaults
with exactly the width overridden. -/
theorem C5_witness :
    resolve nullEnv exampleCustomArgs =
      .ok ⟨.Custom ⟨"https://example.com", some "Hi"⟩,
           { WindowConfig.default with width := .finite 400 }⟩ := by
  have h := (C5_merge_field_wise WindowConfig.default exampleCustomArgs nullEnv
    "https://example.com" (by decide) (by decide)).2 rfl rfl rfl rfl
  rw [h]
  decide

/-- Claim C6: resolving from a YAML file whose parsed tree is the equivalent
of a logical input and resolving from the CLI-equivalent flags of the same
logical input yield identical Config values, for every logical input whose
dimension overrides are acceptable. -/
theorem C6_file_cli_equivalence :
    ∀ L : LogicalInput, L.dims_ok = true →
      resolve (fileEnv L.yamlTree) fileArgs = resolve (fileEnv L.yamlTree) L.cliArgs := by
  intro L hdims
  rcases L with ⟨n⟩ | ⟨url, title, ov⟩
  · obtain ⟨t, d, i, bpt, bpw, bst, bsw⟩ := n
    cases bpw <;> cases bsw <;> rfl
  · obtain ⟨w, h, r, aot, st, f, vaw, cl, mi, ht, tbs⟩ := ov
    simp [LogicalInput.dims_ok, Bool.and_eq_true, Bool.not_eq_true'] at hdims
    obtain ⟨hw, hh⟩ := hdims
    have hp1 : strStartsWith "/app-config.yaml" "~/" = false := by decide
    have hp2 : strStartsWith "/app-config.yaml" "/" = true := by decide
    simp [resolve, resolveSource, finalizeWindow, merge_with_cli_overrides,
      LogicalInput.yamlTree, LogicalInput.cliArgs, fileEnv, fileArgs, load_config,
      expandPath, AppConfig.to_config, windowFromOverrides, WindowConfig.default,
      Args.empty, hw, hh, hp1, hp2, Option.orElse]
    simp [badDimension, Except.map]

/-- Claim C6 witness: the theorem applied at a concrete custom logical input
with a width override. -/
theorem C6_witness :
    resolve (fileEnv exampleLogical.yamlTree) fileArgs =
      resolve (fileEnv exampleLogical.yamlTree) exampleLogical.cliArgs :=
  C6_file_cli_equivalence exampleLogical (by decide)

/-- Claim C7: the three recognized title bar style tokens map to themselves;
every other value falls back to Overlay rather than failing; and an
arbitrary title bar style value never changes whether the override merge
succeeds, so this normalization is a silent recovery and not an error. -/
theorem C7_title_bar_fallback :
    ∀ s : String,
      (s ≠ "overlay" ∧ s ≠ "transparent" ∧ s ≠ "visible" →
        resolveTitleBarStyle s = .Overlay) ∧
      resolveTitleBarStyle "overlay" = .Overlay ∧
      resolveTitleBarStyle "transparent" = .Transparent ∧
      resolveTitleBarStyle "visible" = .Visible ∧
      (∀ (base : WindowConfig) (args : Args),
        (merge_with_cli_overrides base { args with title_bar_style := some s }).isOk =
          (merge_with_cli_overrides base args).isOk) := by
  intro s
  refine ⟨fun h => ?_, rfl, rfl, rfl, fun base args => ?_⟩
  · unfold resolveTitleBarStyle
    rw [if_neg h.1, if_neg h.2.1, if_neg h.2.2]
  · unfold merge_with_cli_overrides
    by_cases h1 : badDimension args.width = true
    · simp [h1]
    · by_cases h2 : badDimension args.height = true <;>
        simp [h1, h2, Except.isOk, Except.toBool]

/-- Claim C7 witness: the theorem applied at a concrete unrecognized token. -/
theorem C7_witness : resolveTitleBarStyle "plain" = .Overlay :=
  (C7_title_bar_fallback "plain").1 (by decide)

/-- Claim C8: a width or height override that is not a finite positive number
makes the override merge fail with InvalidDimension; when both dimension
overrides are acceptable the merge succeeds and keeps the supplied values
as-is, with no clamping. -/
theorem C8_invalid_dimension :
    ∀ (base : WindowConfig) (args : Args) (w : F64),
      ((args.width = some w ∨ args.height = some w) → w.isFinitePos = false →
        merge_with_cli_overrides base args = .error .invalidDimension) ∧
      (badDimension args.width = false → badDimension args.height = false →
        ∃ cfg, merge_with_cli_overrides base args = .ok cfg ∧
          cfg.width = args.width.getD base.width ∧
          cfg.height = args.height.getD base.height) := by
  intro base args w
  constructor
  · rintro (hw | hh) hbad
    · simp [merge_with_cli_overrides, badDimension, hw, hbad]
    · unfold merge_with_cli_overrides
      by_cases hbw : badDimension args.width = true
      · simp [hbw]
      · simp [Bool.not_eq_true] at hbw
        simp [hbw, badDimension, hh, hbad]
  · intro hw hh
    refine ⟨⟨args.width.getD base.width, args.height.getD base.height,
      args.resizable.getD base.resizable, args.always_on_top.getD base.always_on_top,
      args.skip_taskbar.getD base.skip_taskbar, args.focus.getD base.focus,
      args.visible_on_all_workspaces.getD base.visible_on_all_workspaces,
      args.closable.getD base.closable, args.minimizable.getD base.minimizable,
      args.hidden_title.getD base.hidden_title,
      args.title_bar_style.getD base.title_bar_style⟩, ?_, rfl, rfl⟩
    simp [merge_with_cli_overrides, hw, hh]

/-- Claim C8 witness: the theorem applied at a NaN width override. -/
theorem C8_witness :
    merge_with_cli_overrides WindowConfig.default
        { Args.empty with width := some F64.nan } = .error .invalidDimension := by
  exact (C8_invalid_dimension WindowConfig.default
    { Args.empty with width := some F64.nan } F64.nan).1 (Or.inl rfl) rfl

/-- Claim C9: a path starting with tilde-slash has the tilde replaced by the
home directory; otherwise a non-absolute path is resolved against the
current working directory; an absolute path is used as-is; an unreadable
file yields the read error and readable-but-invalid YAML yields the parse
error, each as a returned error value. -/
theorem C9_load_config_paths :
    ∀ (env : Env) (path : String),
      (strStartsWith path "~/" = true →
        expandPath env path = .ok ((env.home.getD ".") ++ path.drop 1)) ∧
      (strStartsWith path "~/" = false → strStartsWith path "/" = false →
        ∀ c, env.cwd = some c → expandPath env path = .ok (c ++ "/" ++ path)) ∧
      (strStartsWith path "~/" = false → strStartsWith path "/" = true →
        expandPath env path = .ok path) ∧
      (∀ expanded, expandPath env path = .ok expanded → env.readFile expanded = none →
        load_config env path = .error ("Failed to read config file " ++ expanded)) ∧
      (∀ expanded content, expandPath env path = .ok expanded →
        env.readFile expanded = some content → env.parseYaml content = none →
        load_config env path = .error "Failed to parse YAML config") := by
  intro env path
  refine ⟨fun h1 => ?_, fun h1 h2 c hc => ?_, fun h1 h2 => ?_,
    fun expanded he hr => ?_, fun expanded content he hr hp => ?_⟩
  · simp [expandPath, h1]
  · simp [expandPath, h1, h2, hc]
  · simp [expandPath, h1, h2]
  · simp [load_config, he, hr]
  · simp [load_config, he, hr, hp]

/-- Claim C9 witness: the theorem applied at a concrete tilde path with no
HOME set, and at a concrete absolute path whose file is unreadable. -/
theorem C9_witness :
    expandPath nullEnv "~/cfg.yaml" = .ok ("." ++ "/cfg.yaml") ∧
    load_config nullEnv "/etc/popup.yaml" =
      .error ("Failed to read config file " ++ "/etc/popup.yaml") := by
  refine ⟨?_, ?_⟩
  · exact (C9_load_config_paths nullEnv "~/cfg.yaml").1 (by decide)
  · exact (C9_load_config_paths nullEnv "/etc/popup.yaml").2.2.2.1 "/etc/popup.yaml"
      (by decide) rfl

/-- Claim C10: when the YAML tree carries both a notification and a custom
section, to_config deterministically returns the notification configuration
with the notification window template; the result does not depend on the
custom section, which is never read. -/
theorem C10_notification_precedence :
    ∀ (n : NotificationConfig) (c : CustomConfig),
      AppConfig.to_config ⟨some n, some c⟩ =
        .ok ⟨.Notification ⟨n.title, n.description, n.icon, n.button_primary_text,
               n.button_primary_webhook, n.button_secondary_text,
               n.button_secondary_webhook⟩,
             WindowConfig.notification_template⟩ := by
  intro n c
  rfl

end Popup
